import Mathlib

/-!
Shallow embedding of the geofence backend (`backend/app`): the data model
(`models.py`), the CRUD layer (`crud.py`), the request handlers in `main.py`,
the background alert task in `celery_app.py`, and the push-send wrapper in
`notifications.py`.

Numeric modelling: the Python code stores latitudes, longitudes and radii as
floats.  The embedding is polymorphic in the numeric type `α` (a linear
order); theorems about the haversine geometry instantiate `α := ℝ` with the
exact-arithmetic haversine, while executable witnesses instantiate `α := ℚ`.

Database modelling: each SQL table is a Lean list kept in insertion order
with ascending autoincrement primary keys (the `next_*_id` counters).  A
SQLAlchemy query `filter(...).all()` is `List.filter`, `filter(...).first()`
is `List.find?`, and `order_by(id.desc()).first()` is `List.find?` on the
reversed list (the list is in ascending-id order).
-/

namespace GeofenceApp

/-- Row of the `users` table (`models.User`). -/
structure User where
  id : Nat
  username : String
deriving DecidableEq

/-- Row of the `geofences` table (`models.Geofence`); numeric columns in `α`. -/
structure Geofence (α : Type) where
  id : Nat
  user_id : Nat
  center_lat : α
  center_lon : α
  radius_m : α
deriving DecidableEq

/-- Row of the `user_locations` table (`models.UserLocation`). -/
structure UserLocation (α : Type) where
  id : Nat
  user_id : Nat
  lat : α
  lon : α
deriving DecidableEq

/-- Row of the `alerts` table (`models.Alert`); `geofence_id` is nullable. -/
structure Alert where
  id : Nat
  user_id : Nat
  geofence_id : Option Nat
  message : String
deriving DecidableEq

/-- Row of the `devices` table (`models.Device`). -/
structure Device where
  id : Nat
  user_id : Nat
  platform : String
  fcm_token : String
deriving DecidableEq

/-- The relational state: one list per table, in insertion order, plus the
autoincrement counters for the primary keys that the embedding assigns. -/
structure DB (α : Type) where
  users : List User
  geofences : List (Geofence α)
  locations : List (UserLocation α)
  alerts : List Alert
  devices : List Device
  next_geofence_id : Nat
  next_location_id : Nat
  next_alert_id : Nat
deriving DecidableEq

/-- Request body of `POST /location/update` (`schemas.LocationUpdate`). -/
structure LocationUpdate (α : Type) where
  user_id : Nat
  lat : α
  lon : α
deriving DecidableEq

/-- Request body of `POST /geofences/` (`schemas.GeofenceCreate`).  The schema
declares `radius_m` as a plain float with no constraint. -/
structure GeofenceCreate (α : Type) where
  user_id : Nat
  center_lat : α
  center_lon : α
  radius_m : α
deriving DecidableEq

/-- Response body of `POST /location/update` (`schemas.LocationCheckResult`). -/
structure LocationCheckResult (α : Type) where
  inside : Bool
  distance_m : α
  alert : Bool
deriving DecidableEq

/-- A FastAPI `HTTPException(status_code, detail)`.  In the spec's error
taxonomy, status 404 is `NotFound` and status 400 is `FailedPrecondition`. -/
structure HTTPException where
  status_code : Nat
  detail : String
deriving DecidableEq

/-- Arguments of a `process_alert_task.delay(user_id, geofence_id, message)`
enqueue: the job placed on the Celery queue by the orchestrator. -/
structure AlertTask where
  user_id : Nat
  geofence_id : Option Nat
  message : String
deriving DecidableEq

namespace crud

/-- Embedding of `crud.get_user`: first row of `users` with the given id. -/
def get_user (db : DB α) (user_id : Nat) : Option User :=
  db.users.find? (fun u => u.id == user_id)

/-- Embedding of `crud.get_user_geofences`: all rows of `geofences` with the
given `user_id`, in table (insertion) order — the query has no `order_by`. -/
def get_user_geofences (db : DB α) (user_id : Nat) : List (Geofence α) :=
  db.geofences.filter (fun g => g.user_id == user_id)

/-- Embedding of `crud.create_geofence`: insert a row copying the request
fields verbatim; returns the stored row and the new state. -/
def create_geofence (db : DB α) (geofence : GeofenceCreate α) :
    Geofence α × DB α :=
  let row : Geofence α :=
    { id := db.next_geofence_id
      user_id := geofence.user_id
      center_lat := geofence.center_lat
      center_lon := geofence.center_lon
      radius_m := geofence.radius_m }
  (row, { db with
            geofences := db.geofences ++ [row]
            next_geofence_id := db.next_geofence_id + 1 })

/-- Embedding of `crud.upsert_user_location`: the query
`filter(user_id == ...).order_by(id.desc()).first()` is `find?` on the
reversed list (the list is in ascending-id order).  If a row exists its
`lat`/`lon` are overwritten in place; otherwise a fresh row is appended. -/
def upsert_user_location (db : DB α) (location : LocationUpdate α) : DB α :=
  match db.locations.reverse.find? (fun row => row.user_id == location.user_id) with
  | some existing =>
      { db with locations :=
          db.locations.map (fun row =>
            if row.id == existing.id then
              { row with lat := location.lat, lon := location.lon }
            else row) }
  | none =>
      { db with
          locations := db.locations ++
            [{ id := db.next_location_id
               user_id := location.user_id
               lat := location.lat
               lon := location.lon }]
          next_location_id := db.next_location_id + 1 }

/-- Embedding of `crud.create_alert`: insert an alert row; returns the stored
row and the new state. -/
def create_alert (db : DB α) (user_id : Nat) (geofence_id : Option Nat)
    (message : String) : Alert × DB α :=
  let row : Alert :=
    { id := db.next_alert_id
      user_id := user_id
      geofence_id := geofence_id
      message := message }
  (row, { db with
            alerts := db.alerts ++ [row]
            next_alert_id := db.next_alert_id + 1 })

/-- Embedding of `crud.get_devices_for_user`: all rows of `devices` with the
given `user_id`, in table order. -/
def get_devices_for_user (db : DB α) (user_id : Nat) : List Device :=
  db.devices.filter (fun d => d.user_id == user_id)

end crud

/-- Outcome of one run of the `/location/update` handler: the HTTP response
(result or raised exception), the database state after the request, and the
Celery jobs enqueued during the request (fire-and-forget: the handler returns
without executing or waiting on them). -/
structure UpdateOutcome (α : Type) where
  response : Except HTTPException (LocationCheckResult α)
  db : DB α
  enqueued : List AlertTask

namespace main

/-- Embedding of the handler `main.update_location`, parametric in the
distance function `dist lat1 lon1 lat2 lon2` (the code calls
`haversine_distance_m`; theorems about the geometry instantiate `dist` with
the real-valued haversine).  Faithful step order: user check, location
upsert, geofence fetch and emptiness check, evaluation against the first
geofence, conditional enqueue, response. -/
def update_location [LinearOrder α] (dist : α → α → α → α → α)
    (db : DB α) (location : LocationUpdate α) : UpdateOutcome α :=
  match crud.get_user db location.user_id with
  | none => ⟨.error ⟨404, "User not found"⟩, db, []⟩
  | some _ =>
    let db1 := crud.upsert_user_location db location
    match crud.get_user_geofences db1 location.user_id with
    | [] => ⟨.error ⟨400, "User has no geofences configured"⟩, db1, []⟩
    | gf :: _ =>
      let distance := dist location.lat location.lon gf.center_lat gf.center_lon
      let inside := decide (distance ≤ gf.radius_m)
      let alert := !inside
      let enqueued :=
        if alert then
          [⟨location.user_id, some gf.id, "User is outside geofenced area"⟩]
        else []
      ⟨.ok ⟨inside, distance, alert⟩, db1, enqueued⟩

/-- Embedding of the handler `main.create_geofence`: validates only that the
user exists, then stores the geofence via `crud.create_geofence` — no check
on `radius_m` anywhere on the path. -/
def create_geofence (db : DB α) (geofence : GeofenceCreate α) :
    Except HTTPException (Geofence α) × DB α :=
  match crud.get_user db geofence.user_id with
  | none => (.error ⟨404, "User not found"⟩, db)
  | some _ =>
    let result := crud.create_geofence db geofence
    (.ok result.fst, result.snd)

end main

/-- Failure of a persistence call (the spec's `StorageUnavailable`): in the
code a database exception raised by `crud.create_alert`. -/
inductive StorageError where
  | unavailable
deriving DecidableEq

/-- Record of one push-send attempt made by the background task: which device
was addressed, the notification title and body, the data payload
(`alert_id`, `user_id`, `geofence_id or 0` — integers in `celery_app.py`),
and the boolean outcome returned by the send. -/
structure SendAttempt where
  device_id : Nat
  fcm_token : String
  title : String
  body : String
  alert_id : Nat
  user_id : Nat
  geofence_id : Nat
  success : Bool
deriving DecidableEq

namespace celery

/-- Embedding of `celery_app.process_alert_task`.  `persistOk` is the oracle
for whether the alert-record commit succeeds (a raised storage exception
propagates out of the task before any device is fetched or addressed, and
the insert is not committed); `send` is the push collaborator's boolean
outcome per device.  On success the task creates exactly one alert row and
then attempts a send to every device of the user, recording each attempt. -/
def process_alert_task (persistOk : Bool) (send : Device → Bool) (db : DB α)
    (user_id : Nat) (geofence_id : Option Nat) (message : String) :
    Except StorageError (DB α × List SendAttempt) :=
  if persistOk then
    let created := crud.create_alert db user_id geofence_id message
    let alert := created.fst
    let db1 := created.snd
    let devices := crud.get_devices_for_user db1 user_id
    let title := "Geofence Alert"
    let body := message
    .ok (db1, devices.map (fun device =>
      { device_id := device.id
        fcm_token := device.fcm_token
        title := title
        body := body
        alert_id := alert.id
        user_id := user_id
        geofence_id := geofence_id.getD 0
        success := send device }))
  else .error .unavailable

end celery

/-- Environment of one `notifications.send_fcm_notification` call: the
project id read from the service-account file, the OAuth access token, and
the outcome of the HTTP POST for a given device token (`Except` models a
raised request exception, `Nat` the HTTP status code). -/
structure FcmEnv where
  project_id : Option String
  access_token : Option String
  post_status : String → Except String Nat

/-- Embedding of `notifications.send_fcm_notification`: a total function into
`Bool` — every failure path (missing project id, missing access token,
non-200 status, raised request exception) is caught inside and returns
`false`; the function never raises to its caller. -/
def send_fcm_notification (env : FcmEnv) (token : String) : Bool :=
  match env.project_id with
  | none => false
  | some _ =>
    match env.access_token with
    | none => false
    | some _ =>
      match env.post_status token with
      | .error _ => false
      | .ok status => status == 200

/-- Embedding of Python `math.radians`: degrees to radians. -/
noncomputable def radians (x : ℝ) : ℝ := x * (Real.pi / 180)

/-- Embedding of Python `math.atan2 y x`: the argument of the point `(x, y)`,
with range `(-π, π]` and `atan2 0 0 = 0`, exactly `Complex.arg ⟨x, y⟩`. -/
noncomputable def atan2 (y x : ℝ) : ℝ := Complex.arg ⟨x, y⟩

/-- Embedding of `main.haversine_distance_m` in exact real arithmetic:
haversine formula on a sphere of radius 6,371,000 meters. -/
noncomputable def haversine_distance_m (lat1 lon1 lat2 lon2 : ℝ) : ℝ :=
  let R : ℝ := 6371000
  let phi1 := radians lat1
  let phi2 := radians lat2
  let dphi := radians (lat2 - lat1)
  let dlambda := radians (lon2 - lon1)
  let a := Real.sin (dphi / 2) ^ 2 +
    Real.cos phi1 * Real.cos phi2 * Real.sin (dlambda / 2) ^ 2
  let c := 2 * atan2 (Real.sqrt a) (Real.sqrt (1 - a))
  R * c

/-! Helper lemmas about the handler. -/

/-- The location upsert touches only the `locations` table. -/
lemma geofences_upsert_user_location (db : DB α) (location : LocationUpdate α) :
    (crud.upsert_user_location db location).geofences = db.geofences := by
  unfold crud.upsert_user_location
  cases db.locations.reverse.find? (fun row => row.user_id == location.user_id) <;> rfl

/-- Fetching geofences after the location upsert sees the same rows as
before the upsert. -/
lemma get_user_geofences_upsert (db : DB α) (location : LocationUpdate α)
    (user_id : Nat) :
    crud.get_user_geofences (crud.upsert_user_location db location) user_id =
      crud.get_user_geofences db user_id := by
  unfold crud.get_user_geofences
  rw [geofences_upsert_user_location]

/-- Unknown user: the handler raises 404 and changes nothing. -/
lemma update_location_user_missing [LinearOrder α] (dist : α → α → α → α → α)
    (db : DB α) (location : LocationUpdate α)
    (hu : crud.get_user db location.user_id = none) :
    main.update_location dist db location =
      ⟨.error ⟨404, "User not found"⟩, db, []⟩ := by
  unfold main.update_location
  rw [hu]

/-- Known user with no geofences: the handler commits the location upsert and
then raises 400. -/
lemma update_location_no_geofence [LinearOrder α] (dist : α → α → α → α → α)
    (db : DB α) (location : LocationUpdate α) (u : User)
    (hu : crud.get_user db location.user_id = some u)
    (hg : crud.get_user_geofences db location.user_id = []) :
    main.update_location dist db location =
      ⟨.error ⟨400, "User has no geofences configured"⟩,
        crud.upsert_user_location db location, []⟩ := by
  unfold main.update_location
  rw [hu]
  simp only [get_user_geofences_upsert, hg]

/-- Known user with at least one geofence: the handler commits the location
upsert, evaluates against the first geofence of the user's list, enqueues a
dispatch job exactly when the point is outside, and returns the result. -/
lemma update_location_success [LinearOrder α] (dist : α → α → α → α → α)
    (db : DB α) (location : LocationUpdate α) (u : User) (gf : Geofence α)
    (rest : List (Geofence α))
    (hu : crud.get_user db location.user_id = some u)
    (hg : crud.get_user_geofences db location.user_id = gf :: rest) :
    main.update_location dist db location =
      ⟨.ok ⟨decide (dist location.lat location.lon gf.center_lat gf.center_lon ≤
              gf.radius_m),
            dist location.lat location.lon gf.center_lat gf.center_lon,
            !decide (dist location.lat location.lon gf.center_lat gf.center_lon ≤
              gf.radius_m)⟩,
        crud.upsert_user_location db location,
        if !decide (dist location.lat location.lon gf.center_lat gf.center_lon ≤
              gf.radius_m) then
          [⟨location.user_id, some gf.id, "User is outside geofenced area"⟩]
        else []⟩ := by
  unfold main.update_location
  rw [hu]
  simp only [get_user_geofences_upsert, hg]

/-! Concrete fixtures used by witnesses and counterexamples. -/

/-- Fixture user. -/
def userAlice : User := ⟨1, "alice"⟩

/-- Fixture geofence for user 1: center (10, 10), radius 100 m. -/
def gfHome : Geofence ℚ := ⟨1, 1, 10, 10, 100⟩

/-- Fixture state: no rows at all. -/
def dbEmpty : DB ℚ := ⟨[], [], [], [], [], 1, 1, 1⟩

/-- Fixture state: user 1 exists but owns no geofence. -/
def dbUserOnly : DB ℚ := ⟨[userAlice], [], [], [], [], 1, 1, 1⟩

/-- Fixture state: user 1 exists and owns one geofence. -/
def dbWithGeofence : DB ℚ := ⟨[userAlice], [gfHome], [], [], [], 2, 1, 1⟩

/-- Fixture location update for user 1. -/
def locOrigin : LocationUpdate ℚ := ⟨1, 0, 0⟩

/-- Fixture distance function returning 0 (point inside the fixture fence). -/
def distZero : ℚ → ℚ → ℚ → ℚ → ℚ := fun _ _ _ _ => 0

/-- Fixture distance function returning 250 (outside the fixture fence). -/
def distFar : ℚ → ℚ → ℚ → ℚ → ℚ := fun _ _ _ _ => 250

example :
    main.update_location distZero dbWithGeofence locOrigin =
      ⟨.ok ⟨true, 0, false⟩,
        ⟨[userAlice], [gfHome], [⟨1, 1, 0, 0⟩], [], [], 2, 2, 1⟩, []⟩ := rfl

example :
    main.update_location distFar dbWithGeofence locOrigin =
      ⟨.ok ⟨false, 250, true⟩,
        ⟨[userAlice], [gfHome], [⟨1, 1, 0, 0⟩], [], [], 2, 2, 1⟩,
        [⟨1, some 1, "User is outside geofenced area"⟩]⟩ := rfl

example :
    main.update_location distZero dbEmpty locOrigin =
      ⟨.error ⟨404, "User not found"⟩, dbEmpty, []⟩ := rfl

example :
    main.update_location distZero dbUserOnly locOrigin =
      ⟨.error ⟨400, "User has no geofences configured"⟩,
        ⟨[userAlice], [], [⟨1, 1, 0, 0⟩], [], [], 1, 2, 1⟩, []⟩ := rfl

/-- C2: the `/location/update` handler fails with 404 (`NotFound`) exactly
when the user does not exist, fails with 400 (`FailedPrecondition`, no
geofence configured) when the user exists but owns zero geofences, and
otherwise returns a `LocationCheckResult` with no error. -/
theorem update_location_error_taxonomy [LinearOrder α]
    (dist : α → α → α → α → α) (db : DB α) (location : LocationUpdate α) :
    (crud.get_user db location.user_id = none →
      (main.update_location dist db location).response =
        .error ⟨404, "User not found"⟩) ∧
    (∀ u, crud.get_user db location.user_id = some u →
      crud.get_user_geofences db location.user_id = [] →
      (main.update_location dist db location).response =
        .error ⟨400, "User has no geofences configured"⟩) ∧
    (∀ u gf rest, crud.get_user db location.user_id = some u →
      crud.get_user_geofences db location.user_id = gf :: rest →
      ∃ r, (main.update_location dist db location).response = .ok r) := by
  refine ⟨fun hu => ?_, fun u hu hg => ?_, fun u gf rest hu hg => ?_⟩
  · rw [update_location_user_missing dist db location hu]
  · rw [update_location_no_geofence dist db location u hu hg]
  · rw [update_location_success dist db location u gf rest hu hg]
    exact ⟨_, rfl⟩

theorem update_location_error_taxonomy_witness :
    ((main.update_location distZero dbEmpty locOrigin).response =
        .error ⟨404, "User not found"⟩) ∧
    ((main.update_location distZero dbUserOnly locOrigin).response =
        .error ⟨400, "User has no geofences configured"⟩) ∧
    (∃ r, (main.update_location distZero dbWithGeofence locOrigin).response =
        .ok r) :=
  ⟨(update_location_error_taxonomy distZero dbEmpty locOrigin).1 rfl,
   (update_location_error_taxonomy distZero dbUserOnly locOrigin).2.1
     userAlice rfl rfl,
   (update_location_error_taxonomy distZero dbWithGeofence locOrigin).2.2
     userAlice gfHome [] rfl rfl⟩

/-- C3 fails as stated: a location update for a user that does not exist
performs no location write at all — the handler raises 404 before the
upsert, so the location table is unchanged (empty before and after). -/
theorem update_location_write_counterexample :
    dbEmpty.locations = [] ∧
    (main.update_location distZero dbEmpty locOrigin).response =
      .error ⟨404, "User not found"⟩ ∧
    (main.update_location distZero dbEmpty locOrigin).db.locations = [] :=
  ⟨rfl, rfl, rfl⟩

/-- C3 (amended): for every location update whose user exists, exactly the
location upsert is committed to the state, and when the user owns zero
geofences the request then fails with 400 (`FailedPrecondition`) — the
upsert has already been performed and committed before the failure. -/
theorem update_location_persist_before_failure [LinearOrder α]
    (dist : α → α → α → α → α) (db : DB α) (location : LocationUpdate α)
    (u : User) (hu : crud.get_user db location.user_id = some u) :
    (main.update_location dist db location).db =
      crud.upsert_user_location db location ∧
    (crud.get_user_geofences db location.user_id = [] →
      (main.update_location dist db location).response =
        .error ⟨400, "User has no geofences configured"⟩) := by
  cases hg : crud.get_user_geofences db location.user_id with
  | nil =>
    rw [update_location_no_geofence dist db location u hu hg]
    exact ⟨rfl, fun _ => rfl⟩
  | cons gf rest =>
    rw [update_location_success dist db location u gf rest hu hg]
    exact ⟨rfl, fun h => List.noConfusion h⟩

theorem update_location_persist_before_failure_witness :
    (main.update_location distZero dbUserOnly locOrigin).db =
      crud.upsert_user_location dbUserOnly locOrigin ∧
    (crud.get_user_geofences dbUserOnly locOrigin.user_id = [] →
      (main.update_location distZero dbUserOnly locOrigin).response =
        .error ⟨400, "User has no geofences configured"⟩) :=
  update_location_persist_before_failure distZero dbUserOnly locOrigin
    userAlice rfl

/-- C4: on the success path a dispatch job is enqueued iff the result's
alert flag is set (the point is outside), the job carries exactly the user
id, the selected geofence's id and the fixed message, and the handler
returns the result with `alert = !inside` alongside the enqueued job list
(fire-and-forget: the job is returned as data, never executed or awaited by
the handler). -/
theorem update_location_dispatch_enqueue [LinearOrder α]
    (dist : α → α → α → α → α) (db : DB α) (location : LocationUpdate α)
    (u : User) (gf : Geofence α) (rest : List (Geofence α))
    (hu : crud.get_user db location.user_id = some u)
    (hg : crud.get_user_geofences db location.user_id = gf :: rest) :
    ∃ r, (main.update_location dist db location).response = .ok r ∧
      r.alert = !r.inside ∧
      (main.update_location dist db location).enqueued =
        (if r.alert then
          [⟨location.user_id, some gf.id, "User is outside geofenced area"⟩]
        else []) := by
  rw [update_location_success dist db location u gf rest hu hg]
  exact ⟨_, rfl, rfl, rfl⟩

theorem update_location_dispatch_enqueue_witness :
    ∃ r, (main.update_location distFar dbWithGeofence locOrigin).response =
        .ok r ∧
      r.alert = !r.inside ∧
      (main.update_location distFar dbWithGeofence locOrigin).enqueued =
        (if r.alert then
          [⟨locOrigin.user_id, some gfHome.id, "User is outside geofenced area"⟩]
        else []) :=
  update_location_dispatch_enqueue distFar dbWithGeofence locOrigin
    userAlice gfHome [] rfl rfl

/-- C5: the geofence used for evaluation is the first element, in creation
(insertion) order, of the user's geofence list: the returned distance and
containment are computed against that geofence's center and radius, and any
enqueued job references that geofence's id. -/
theorem update_location_uses_first_geofence [LinearOrder α]
    (dist : α → α → α → α → α) (db : DB α) (location : LocationUpdate α)
    (u : User) (gf : Geofence α) (rest : List (Geofence α))
    (hu : crud.get_user db location.user_id = some u)
    (hg : crud.get_user_geofences db location.user_id = gf :: rest) :
    (main.update_location dist db location).response =
      .ok ⟨decide (dist location.lat location.lon gf.center_lat gf.center_lon ≤
              gf.radius_m),
           dist location.lat location.lon gf.center_lat gf.center_lon,
           !decide (dist location.lat location.lon gf.center_lat gf.center_lon ≤
              gf.radius_m)⟩ ∧
    ∀ t ∈ (main.update_location dist db location).enqueued,
      t.geofence_id = some gf.id := by
  rw [update_location_success dist db location u gf rest hu hg]
  refine ⟨rfl, fun t ht => ?_⟩
  by_cases hb : dist location.lat location.lon gf.center_lat gf.center_lon ≤
      gf.radius_m
  · simp [hb] at ht
  · simp only [decide_eq_false hb, Bool.not_false, if_true,
      List.mem_singleton] at ht
    rw [ht]

theorem update_location_uses_first_geofence_witness :
    (main.update_location distFar dbWithGeofence locOrigin).response =
      .ok ⟨decide (distFar locOrigin.lat locOrigin.lon gfHome.center_lat
              gfHome.center_lon ≤ gfHome.radius_m),
           distFar locOrigin.lat locOrigin.lon gfHome.center_lat
             gfHome.center_lon,
           !decide (distFar locOrigin.lat locOrigin.lon gfHome.center_lat
              gfHome.center_lon ≤ gfHome.radius_m)⟩ ∧
    ∀ t ∈ (main.update_location distFar dbWithGeofence locOrigin).enqueued,
      t.geofence_id = some gfHome.id :=
  update_location_uses_first_geofence distFar dbWithGeofence locOrigin
    userAlice gfHome [] rfl rfl

/-- Fixture devices for user 1. -/
def deviceA : Device := ⟨1, 1, "android", "tokA"⟩

/-- Fixture second device. -/
def deviceB : Device := ⟨2, 1, "ios", "tokB"⟩

/-- Fixture third device. -/
def deviceC : Device := ⟨3, 1, "web", "tokC"⟩

/-- Fixture state with three registered devices for user 1. -/
def dbThreeDevices : DB ℚ :=
  ⟨[userAlice], [gfHome], [], [], [deviceA, deviceB, deviceC], 2, 1, 1⟩

/-- Fixture send environment: credentials present, and the HTTP POST for
device B's token raises while the others return status 200. -/
def fcmEnvFixture : FcmEnv :=
  ⟨some "demo-project", some "oauth-token",
    fun token => if token == "tokB" then .error "timeout" else .ok 200⟩

/-- Fixture send oracle through the embedded FCM wrapper: fails exactly on
device B (the second device). -/
def distBoolFailB : Device → Bool :=
  fun d => send_fcm_notification fcmEnvFixture d.fcm_token

/-- The alert insert touches only the `alerts` table, so the device fetch
performed after it sees the same device rows. -/
lemma get_devices_create_alert (db : DB α) (user_id : Nat)
    (geofence_id : Option Nat) (message : String) (uid : Nat) :
    crud.get_devices_for_user (crud.create_alert db user_id geofence_id message).snd uid =
      crud.get_devices_for_user db uid := rfl

/-- C6: in the dispatcher job the alert record is persisted first: if the
persistence fails the job fails entirely with zero send attempts; if it
succeeds, exactly one alert row (with the given user, geofence and message)
is appended per execution, and every send attempt carries that row's id —
the record exists before any notification attempt. -/
theorem process_alert_task_persist_first (send : Device → Bool) (db : DB α)
    (user_id : Nat) (geofence_id : Option Nat) (message : String) :
    (celery.process_alert_task false send db user_id geofence_id message =
      .error .unavailable) ∧
    (∃ alert db1 attempts,
      celery.process_alert_task true send db user_id geofence_id message =
        .ok (db1, attempts) ∧
      db1.alerts = db.alerts ++ [alert] ∧
      alert.user_id = user_id ∧ alert.geofence_id = geofence_id ∧
      alert.message = message ∧
      ∀ a ∈ attempts, a.alert_id = alert.id) := by
  refine ⟨rfl, ⟨db.next_alert_id, user_id, geofence_id, message⟩, _, _,
    rfl, rfl, rfl, rfl, rfl, ?_⟩
  intro a ha
  rw [List.mem_map] at ha
  obtain ⟨d, _, rfl⟩ := ha
  rfl

theorem process_alert_task_persist_first_witness :
    (celery.process_alert_task false distBoolFailB dbThreeDevices 1 (some 1)
        "User is outside geofenced area" = .error .unavailable) ∧
    (∃ alert db1 attempts,
      celery.process_alert_task true distBoolFailB dbThreeDevices 1 (some 1)
          "User is outside geofenced area" = .ok (db1, attempts) ∧
      db1.alerts = dbThreeDevices.alerts ++ [alert] ∧
      alert.user_id = 1 ∧ alert.geofence_id = some 1 ∧
      alert.message = "User is outside geofenced area" ∧
      ∀ a ∈ attempts, a.alert_id = alert.id) :=
  process_alert_task_persist_first distBoolFailB dbThreeDevices 1 (some 1)
    "User is outside geofenced area"

/-- C7: device sends are independent: for every send oracle (including ones
failing on some device) the successful job attempts a send to every device
of the user — the attempt list has one entry per device, each device gets an
attempt whose recorded outcome is exactly that device's own send result (a
boolean; the embedded send wrapper is a total function), and an empty device
set yields a successful job with zero attempts. -/
theorem process_alert_task_sends_independent (send : Device → Bool)
    (db : DB α) (user_id : Nat) (geofence_id : Option Nat) (message : String) :
    ∃ db1 attempts,
      celery.process_alert_task true send db user_id geofence_id message =
        .ok (db1, attempts) ∧
      attempts.length = (crud.get_devices_for_user db user_id).length ∧
      (∀ d ∈ crud.get_devices_for_user db user_id,
        ∃ a ∈ attempts, a.device_id = d.id ∧ a.fcm_token = d.fcm_token ∧
          a.success = send d) ∧
      (crud.get_devices_for_user db user_id = [] → attempts = []) := by
  refine ⟨_, _, rfl, ?_, ?_, ?_⟩
  · rw [get_devices_create_alert]
    exact List.length_map _ _
  · intro d hd
    refine ⟨⟨d.id, d.fcm_token, "Geofence Alert", message,
      db.next_alert_id, user_id, geofence_id.getD 0, send d⟩, ?_, rfl, rfl, rfl⟩
    rw [get_devices_create_alert]
    exact List.mem_map_of_mem _ hd
  · intro hd
    rw [get_devices_create_alert, hd]
    rfl

theorem process_alert_task_sends_independent_witness :
    ∃ db1 attempts,
      celery.process_alert_task true distBoolFailB dbThreeDevices 1 (some 1)
          "User is outside geofenced area" = .ok (db1, attempts) ∧
      attempts.length = (crud.get_devices_for_user dbThreeDevices 1).length ∧
      (∀ d ∈ crud.get_devices_for_user dbThreeDevices 1,
        ∃ a ∈ attempts, a.device_id = d.id ∧ a.fcm_token = d.fcm_token ∧
          a.success = distBoolFailB d) ∧
      (crud.get_devices_for_user dbThreeDevices 1 = [] → attempts = []) :=
  process_alert_task_sends_independent distBoolFailB dbThreeDevices 1 (some 1)
    "User is outside geofenced area"

/-- Filtering commutes with a map that does not change the predicate's
verdict on any element. -/
lemma filter_map_pred_invariant {β : Type} (p : β → Bool) (f : β → β)
    (hf : ∀ x, p (f x) = p x) (l : List β) :
    (l.map f).filter p = (l.filter p).map f := by
  induction l with
  | nil => rfl
  | cons x xs ih =>
    simp only [List.map_cons, List.filter_cons, hf x]
    cases p x <;> simp [ih]

/-- A list of length at most one that contains an element is exactly the
singleton of that element. -/
lemma eq_singleton_of_length_le_one {β : Type} {l : List β} {a : β}
    (h : l.length ≤ 1) (ha : a ∈ l) : l = [a] := by
  cases l with
  | nil => cases ha
  | cons b t =>
    cases t with
    | nil =>
      rw [List.mem_singleton] at ha
      rw [ha]
    | cons c t2 =>
      simp only [List.length_cons] at h
      omega

/-- Case of the upsert where a row for the user already exists: that row's
coordinates are overwritten in place. -/
lemma upsert_user_location_found (db : DB α) (location : LocationUpdate α)
    (existing : UserLocation α)
    (hf : db.locations.reverse.find?
        (fun row => row.user_id == location.user_id) = some existing) :
    crud.upsert_user_location db location =
      { db with locations :=
          db.locations.map (fun row =>
            if row.id == existing.id then
              { row with lat := location.lat, lon := location.lon }
            else row) } := by
  unfold crud.upsert_user_location
  rw [hf]

/-- Case of the upsert where the user has no row yet: a fresh row is
appended. -/
lemma upsert_user_location_not_found (db : DB α) (location : LocationUpdate α)
    (hf : db.locations.reverse.find?
        (fun row => row.user_id == location.user_id) = none) :
    crud.upsert_user_location db location =
      { db with
          locations := db.locations ++
            [{ id := db.next_location_id
               user_id := location.user_id
               lat := location.lat
               lon := location.lon }]
          next_location_id := db.next_location_id + 1 } := by
  unfold crud.upsert_user_location
  rw [hf]

/-- C8: the location upsert is keyed by `user_id`: from a state with at most
one location row for the updating user, the upsert leaves exactly one row
for that user, holding the update's coordinates; and when a row already
existed no row is appended (the table's size is unchanged). -/
theorem upsert_user_location_keyed (db : DB α) (location : LocationUpdate α)
    (h : (db.locations.filter
        (fun row => row.user_id == location.user_id)).length ≤ 1) :
    (∃ row, (crud.upsert_user_location db location).locations.filter
        (fun r => r.user_id == location.user_id) = [row] ∧
      row.lat = location.lat ∧ row.lon = location.lon) ∧
    ((db.locations.filter
        (fun row => row.user_id == location.user_id)).length = 1 →
      (crud.upsert_user_location db location).locations.length =
        db.locations.length) := by
  cases hf : db.locations.reverse.find?
      (fun row => row.user_id == location.user_id) with
  | none =>
    have hnone : ∀ row ∈ db.locations, ¬(row.user_id == location.user_id) = true := by
      intro row hr
      exact List.find?_eq_none.mp hf row (List.mem_reverse.mpr hr)
    have hfil : db.locations.filter
        (fun row => row.user_id == location.user_id) = [] :=
      List.filter_eq_nil_iff.mpr hnone
    rw [upsert_user_location_not_found db location hf]
    constructor
    · refine ⟨⟨db.next_location_id, location.user_id, location.lat,
        location.lon⟩, ?_, rfl, rfl⟩
      rw [List.filter_append, hfil]
      simp
    · intro h1
      rw [hfil] at h1
      cases h1
  | some existing =>
    have hpe := List.find?_some hf
    have hme : existing ∈ db.locations :=
      List.mem_reverse.mp (List.mem_of_find?_eq_some hf)
    have hmf : existing ∈ db.locations.filter
        (fun row => row.user_id == location.user_id) :=
      List.mem_filter.mpr ⟨hme, hpe⟩
    have hsing : db.locations.filter
        (fun row => row.user_id == location.user_id) = [existing] :=
      eq_singleton_of_length_le_one h hmf
    rw [upsert_user_location_found db location existing hf]
    have hcomm := filter_map_pred_invariant
      (fun row => row.user_id == location.user_id)
      (fun row => if row.id == existing.id then
          { row with lat := location.lat, lon := location.lon }
        else row)
      (by intro x; by_cases hx : (x.id == existing.id) = true <;> simp [hx])
      db.locations
    constructor
    · refine ⟨{ existing with lat := location.lat, lon := location.lon },
        ?_, rfl, rfl⟩
      rw [hcomm, hsing]
      simp
    · intro _
      exact List.length_map _ _

/-- Fixture state for user 1 already holding one location row. -/
def dbOneLocation : DB ℚ :=
  ⟨[userAlice], [gfHome], [⟨1, 1, 0, 0⟩], [], [], 2, 2, 1⟩

theorem upsert_user_location_keyed_witness :
    (∃ row, (crud.upsert_user_location dbOneLocation locOrigin).locations.filter
        (fun r => r.user_id == locOrigin.user_id) = [row] ∧
      row.lat = locOrigin.lat ∧ row.lon = locOrigin.lon) ∧
    ((dbOneLocation.locations.filter
        (fun row => row.user_id == locOrigin.user_id)).length = 1 →
      (crud.upsert_user_location dbOneLocation locOrigin).locations.length =
        dbOneLocation.locations.length) :=
  upsert_user_location_keyed dbOneLocation locOrigin (by decide)

/-- Fixture geofence over the reals. -/
def gfHomeR : Geofence ℝ := ⟨1, 1, 10, 10, 100⟩

/-- Fixture state over the reals: user 1 with one geofence. -/
def dbWithGeofenceR : DB ℝ := ⟨[userAlice], [gfHomeR], [], [], [], 2, 1, 1⟩

/-- Fixture location update over the reals. -/
def locOriginR : LocationUpdate ℝ := ⟨1, 0, 0⟩

/-- C1: for every location update passing the preconditions, the returned
result's `distance_m` is the haversine distance from the update's coordinate
to the selected geofence's center, and `inside` holds iff that distance is
at most the geofence's radius — the boundary is inclusive, since the
comparison is `≤`. -/
theorem update_location_containment (db : DB ℝ) (location : LocationUpdate ℝ)
    (u : User) (gf : Geofence ℝ) (rest : List (Geofence ℝ))
    (hu : crud.get_user db location.user_id = some u)
    (hg : crud.get_user_geofences db location.user_id = gf :: rest) :
    ∃ r, (main.update_location haversine_distance_m db location).response =
        .ok r ∧
      r.distance_m = haversine_distance_m location.lat location.lon
        gf.center_lat gf.center_lon ∧
      (r.inside = true ↔ r.distance_m ≤ gf.radius_m) := by
  rw [update_location_success haversine_distance_m db location u gf rest hu hg]
  exact ⟨_, rfl, rfl, decide_eq_true_iff⟩

theorem update_location_containment_witness :
    ∃ r, (main.update_location haversine_distance_m dbWithGeofenceR
        locOriginR).response = .ok r ∧
      r.distance_m = haversine_distance_m locOriginR.lat locOriginR.lon
        gfHomeR.center_lat gfHomeR.center_lon ∧
      (r.inside = true ↔ r.distance_m ≤ gfHomeR.radius_m) :=
  update_location_containment dbWithGeofenceR locOriginR userAlice gfHomeR []
    rfl rfl

/-- The embedded `atan2` at the point `(1, 0)` of the positive real axis. -/
lemma atan2_zero_one : atan2 0 1 = 0 := by
  unfold atan2
  have h1 : (⟨1, 0⟩ : ℂ) = 1 := Complex.ext rfl rfl
  rw [h1, Complex.arg_one]

/-- Squared sine is an even function of the degree difference. -/
lemma sin_sq_radians_swap (x y : ℝ) :
    Real.sin (radians (x - y) / 2) ^ 2 = Real.sin (radians (y - x) / 2) ^ 2 := by
  have hxy : radians (x - y) / 2 = -(radians (y - x) / 2) := by
    unfold radians; ring
  rw [hxy, Real.sin_neg, neg_sq]

/-- C9: in the exact-arithmetic embedding, the haversine distance is
symmetric in its two coordinates and zero on equal points. -/
theorem haversine_symm_and_zero :
    (∀ lat1 lon1 lat2 lon2 : ℝ,
      haversine_distance_m lat1 lon1 lat2 lon2 =
        haversine_distance_m lat2 lon2 lat1 lon1) ∧
    (∀ lat lon : ℝ, haversine_distance_m lat lon lat lon = 0) := by
  constructor
  · intro lat1 lon1 lat2 lon2
    unfold haversine_distance_m
    dsimp only
    rw [sin_sq_radians_swap lat2 lat1, sin_sq_radians_swap lon2 lon1,
      mul_comm (Real.cos (radians lat1)) (Real.cos (radians lat2))]
  · intro lat lon
    unfold haversine_distance_m
    dsimp only
    have h0a : radians (lat - lat) = 0 := by unfold radians; ring
    have h0b : radians (lon - lon) = 0 := by unfold radians; ring
    rw [h0a, h0b, zero_div, Real.sin_zero]
    have ha : (0 : ℝ) ^ 2 +
        Real.cos (radians lat) * Real.cos (radians lat) * 0 ^ 2 = 0 := by ring
    rw [ha, Real.sqrt_zero, sub_zero, Real.sqrt_one, atan2_zero_one]
    ring

/-- Fixture geofence-creation request with a negative radius. -/
def gfReqNegative : GeofenceCreate ℚ := ⟨1, 0, 0, -1⟩

/-- Fixture geofence-creation request with a positive radius. -/
def gfReqValid : GeofenceCreate ℚ := ⟨1, 10, 10, 100⟩

/-- C10 fails on the code: a creation request with radius −1 for an existing
user is accepted (no validation anywhere on the path) and the stored
geofence's radius is −1, which is not greater than 0. -/
theorem create_geofence_radius_counterexample :
    (main.create_geofence dbUserOnly gfReqNegative).fst =
      .ok ⟨1, 1, 0, 0, -1⟩ ∧
    (⟨1, 1, 0, 0, -1⟩ : Geofence ℚ) ∈
      (main.create_geofence dbUserOnly gfReqNegative).snd.geofences ∧
    ¬((-1 : ℚ) > 0) :=
  ⟨rfl, by decide, by decide⟩

/-- C10 (amended): the geofence-creation operation checks only that the user
exists and stores the geofence with `radius_m` exactly as requested — no
positivity validation is performed, so `radius_m > 0` holds for a stored
geofence only when the request's radius was positive. -/
theorem create_geofence_stores_radius_verbatim (db : DB α)
    (geofence : GeofenceCreate α) (u : User)
    (hu : crud.get_user db geofence.user_id = some u) :
    ∃ gf, (main.create_geofence db geofence).fst = .ok gf ∧
      gf.radius_m = geofence.radius_m ∧
      gf ∈ (main.create_geofence db geofence).snd.geofences := by
  unfold main.create_geofence
  rw [hu]
  refine ⟨_, rfl, rfl, ?_⟩
  exact List.mem_append_right _ (List.mem_singleton.mpr rfl)

theorem create_geofence_stores_radius_verbatim_witness :
    ∃ gf, (main.create_geofence dbUserOnly gfReqValid).fst = .ok gf ∧
      gf.radius_m = gfReqValid.radius_m ∧
      gf ∈ (main.create_geofence dbUserOnly gfReqValid).snd.geofences :=
  create_geofence_stores_radius_verbatim dbUserOnly gfReqValid userAlice rfl

end GeofenceApp
